import Mathlib

/-!
Shallow embedding of the S2RTool-Legacy frontend scripts
(`frontend/planning-script.js`, `frontend/planning-detail-script.js`,
and the shared `utils.js` copy shipped with them).

The scripts are single-threaded DOM event handlers.  We embed each page's
mutable state (module-level variables plus the DOM elements the handlers
touch) as a record, and each handler as a pure state transformer.  The
outcome of the one `fetch` a render handler performs is passed in as an
explicit environment value; the handler additionally emits a trace of
events (flag writes and issued HTTP POSTs) so that ordering and
at-most-once properties of the network request can be stated.
-/

/-- JS truthiness of a variable holding either `null` or a string:
`null` and the empty string are falsy. -/
def strTruthy : Option String → Bool
  | none => false
  | some v => v ≠ ""

/-- `Math.round` on a nonnegative quantity: round half up.  JS `number`
arithmetic is modelled by exact rationals. -/
def jsRound (q : ℚ) : ℤ := ⌊q + 1/2⌋

/-- The ASCII whitespace characters stripped by JS `String.prototype.trim`
(the Unicode space separators do not occur in this code base). -/
def isJsWhitespace (c : Char) : Bool :=
  c = ' ' ∨ c = '\t' ∨ c = '\n' ∨ c = '\r' ∨ c = '\x0b' ∨ c = '\x0c'

/-- JS `String.prototype.trim`: strip whitespace from both ends. -/
def jsTrim (s : String) : String :=
  String.mk (((s.data.dropWhile isJsWhitespace).reverse.dropWhile isJsWhitespace).reverse)

/-- The dimension computation of `optimizeImageForUpload` (identical in
`planning-script.js` and the `utils.js` copy): if either side exceeds
`MAX_DIMENSION = 1024`, both sides are scaled by
`ratio = Math.min(1024/width, 1024/height)` and rounded; otherwise the
image is left as is. -/
def optimizeDims (width height : ℕ) : ℕ × ℕ :=
  let MAX_DIMENSION : ℕ := 1024
  if width > MAX_DIMENSION ∨ height > MAX_DIMENSION then
    let ratio : ℚ := min ((MAX_DIMENSION : ℚ) / width) ((MAX_DIMENSION : ℚ) / height)
    ((jsRound (width * ratio)).toNat, (jsRound (height * ratio)).toNat)
  else
    (width, height)

/-- One `.lot-card` in the planning page's `lotCardsContainer`: the raw
values of its `.lot-number-input` and `.lot-description-input`. -/
structure LotCard where
  numberValue : String
  descriptionValue : String
deriving DecidableEq, Repr

/-- One element of the `lot_descriptions` array built by
`collectLotDescriptions`. -/
structure LotEntry where
  lot_number : String
  description : String
deriving DecidableEq, Repr

/-- `collectLotDescriptions`: trims both fields of each card and keeps the
card only when both trimmed values are truthy (non-empty). -/
def collectLotDescriptions (cards : List LotCard) : List LotEntry :=
  cards.filterMap fun card =>
    let lotNumber := (jsTrim card.numberValue)
    let description := (jsTrim card.descriptionValue)
    if lotNumber ≠ "" ∧ description ≠ "" then
      some { lot_number := lotNumber, description := description }
    else
      none

/-- Planning page state: the module-level variables of
`planning-script.js` plus the DOM the handlers read and write. -/
structure PlanningState where
  currentSitePlanImage : Option String
  currentLotMapImage : Option String
  isPlanningRendering : Bool
  lotCards : List LotCard
  cameraAngle : String
  timeOfDay : String
  aspectRatio : String
  styleKeywords : String
  errorText : String
  errorHidden : Bool
  successText : String
  successHidden : Bool
  generateBtnDisabled : Bool
  generateBtnSpinner : Bool
  gallery : List String
  downloadBtnHidden : Bool
  outputControlsHidden : Bool
  sitePlanUploaderHasImage : Bool
  sitePlanPreviewSrc : String
  sitePlanPreviewHidden : Bool
  sitePlanUploadText : String
  lotMapUploaderHasImage : Bool
  lotMapPreviewSrc : String
  lotMapPreviewHidden : Bool
  lotMapUploadText : String
  addLotBtnDisabled : Bool
deriving DecidableEq, Repr

/-- `showError('planningError', message)`. -/
def PlanningState.showError (s : PlanningState) (message : String) : PlanningState :=
  { s with errorText := message, errorHidden := false }

/-- `hideError('planningError')`. -/
def PlanningState.hideError (s : PlanningState) : PlanningState :=
  { s with errorHidden := true }

/-- `showSuccess('planningSuccess', message)` (the auto-hide timer is a
real-time effect and is not modelled). -/
def PlanningState.showSuccess (s : PlanningState) (message : String) : PlanningState :=
  { s with successText := message, successHidden := false }

/-- `hideSuccess('planningSuccess')`. -/
def PlanningState.hideSuccess (s : PlanningState) : PlanningState :=
  { s with successHidden := true }

/-- `updateGenerateButton`: the generate button is enabled exactly when a
site plan (`!== null`), a lot map (`!== null`), at least one lot card and
at least one non-blank lot description are present. -/
def updateGenerateButton (s : PlanningState) : PlanningState :=
  let hasSitePlan := s.currentSitePlanImage.isSome
  let hasLotMap := s.currentLotMapImage.isSome
  let hasLots := !s.lotCards.isEmpty
  let hasDescriptions := s.lotCards.any fun card => (jsTrim card.descriptionValue) ≠ ""
  { s with generateBtnDisabled := !(hasSitePlan && hasLotMap && hasLots && hasDescriptions) }

/-- The body of the POST `/api/planning/render` request
(`requestData` in `generatePlanningRender`). -/
structure PlanningRequest where
  site_plan_base64 : String
  lot_map_base64 : String
  lot_descriptions : List LotEntry
  camera_angle : String
  time_of_day : String
  aspect_ratio : String
  style_keywords : String
deriving DecidableEq, Repr

/-- `requestData` as assembled by `generatePlanningRender` from the page
state (the two images are non-null at this point; `getD ""` discharges
the `Option`). -/
def mkPlanningRequest (s : PlanningState) : PlanningRequest :=
  { site_plan_base64 := s.currentSitePlanImage.getD ""
    lot_map_base64 := s.currentLotMapImage.getD ""
    lot_descriptions := collectLotDescriptions s.lotCards
    camera_angle := s.cameraAngle
    time_of_day := s.timeOfDay
    aspect_ratio := s.aspectRatio
    style_keywords := s.styleKeywords }

/-- Successful JSON body of POST `/api/planning/render`. -/
structure PlanningRenderOk where
  generated_image_base64 : String
  mime_type : String
deriving DecidableEq, Repr

/-- Environment outcome of the planning render `fetch`:
a 2xx response with parsed body, a non-ok response whose parsed body may
carry an `error` field (`none` models an absent field), or a rejected
promise / JSON parse failure carrying the exception's message. -/
inductive PlanningOutcome where
  | ok (result : PlanningRenderOk)
  | httpError (status : ℕ) (errorField : Option String)
  | netError (message : String)
deriving DecidableEq, Repr

/-- Observable events of one invocation of a render handler on the
planning page. -/
inductive PlanningEvent where
  | setFlag (value : Bool)
  | fetch (req : PlanningRequest)
deriving DecidableEq, Repr

/-- `displayPlanningRender`: clear the gallery, insert a single `img`
whose `src` is a data URL assembled from the returned mime type and
base64 payload, and reveal the download button and output controls. -/
def displayPlanningRender (s : PlanningState) (base64Data mimeType : String) : PlanningState :=
  { s with
    gallery := ["data:" ++ mimeType ++ ";base64," ++ base64Data]
    downloadBtnHidden := false
    outputControlsHidden := false }

/-- `errorData.error || 'Planning render failed'` for a non-ok response. -/
def planningHttpErrMsg : Option String → String
  | some e => if e = "" then "Planning render failed" else e
  | none => "Planning render failed"

/-- The `try`/`catch`/`finally` body of `generatePlanningRender`, entered
once all guards have passed: set the in-flight flag, disable the button
and show its spinner, hide stale messages, then dispatch on the fetch
outcome; the `finally` block re-enables the button, restores its label
and clears the flag. -/
def planningRenderCore (s : PlanningState) (o : PlanningOutcome) : PlanningState :=
  let s1 := { s with
    isPlanningRendering := true
    generateBtnDisabled := true
    generateBtnSpinner := true }
  let s1 := s1.hideError.hideSuccess
  let s2 := match o with
    | .ok r =>
        (displayPlanningRender s1 r.generated_image_base64 r.mime_type).showSuccess
          "🎉 Planning render hoàn tất!"
    | .httpError _ errorField =>
        s1.showError ("Lỗi render: " ++ planningHttpErrMsg errorField)
    | .netError message =>
        s1.showError ("Lỗi render: " ++ message)
  { s2 with
    generateBtnDisabled := false
    generateBtnSpinner := false
    isPlanningRendering := false }

/-- `generatePlanningRender`: validate the two images, then the collected
lot descriptions, then the in-flight flag, and only then perform the
single POST to `/api/planning/render`. -/
def generatePlanningRender (s : PlanningState) (o : PlanningOutcome) :
    PlanningState × List PlanningEvent :=
  if !(strTruthy s.currentSitePlanImage) || !(strTruthy s.currentLotMapImage) then
    (s.showError "Vui lòng upload Site Plan và Lot Map!", [])
  else if (collectLotDescriptions s.lotCards).length = 0 then
    (s.showError "Vui lòng thêm ít nhất một mô tả lô!", [])
  else if s.isPlanningRendering then
    (s, [])
  else
    (planningRenderCore s o,
     [.setFlag true, .fetch (mkPlanningRequest s), .setFlag false])

/-- Outcome of the upload pipeline (`optimizeImageForUpload` followed by
`FileReader.readAsDataURL`): the resulting data URL, or an exception
message reaching the handler's `catch`. -/
inductive UploadOutcome where
  | ok (dataUrl : String)
  | err (message : String)
deriving DecidableEq, Repr

/-- `handleSitePlanUpload`: ignore an empty file list; on success store
the data URL, update the uploader UI and re-evaluate the generate button;
an exception is caught and shown as a fixed message. -/
def handleSitePlanUpload (s : PlanningState) (hasFile : Bool) (o : UploadOutcome) :
    PlanningState :=
  if !hasFile then s
  else match o with
    | .ok dataUrl =>
        updateGenerateButton { s with
          currentSitePlanImage := some dataUrl
          sitePlanUploaderHasImage := true
          sitePlanPreviewSrc := dataUrl
          sitePlanPreviewHidden := false
          sitePlanUploadText := "✅ Đã tải Site Plan" }
    | .err _ =>
        s.showError "Lỗi tải site plan. Vui lòng thử lại."

/-- `handleLotMapUpload`: like the site-plan handler, and additionally
enables the add-lot button on success. -/
def handleLotMapUpload (s : PlanningState) (hasFile : Bool) (o : UploadOutcome) :
    PlanningState :=
  if !hasFile then s
  else match o with
    | .ok dataUrl =>
        updateGenerateButton { s with
          currentLotMapImage := some dataUrl
          lotMapUploaderHasImage := true
          lotMapPreviewSrc := dataUrl
          lotMapPreviewHidden := false
          lotMapUploadText := "✅ Đã tải Lot Map"
          addLotBtnDisabled := false }
    | .err _ =>
        s.showError "Lỗi tải lot map. Vui lòng thử lại."

/-- Detail page state: the module-level variables of
`planning-detail-script.js` plus every form field and DOM element its
handlers read or write.  `select` elements carry both their `value` and
the text of the selected option, since `collectFormData` reads the
former and `buildDescriptionFromFields` the latter. -/
structure DetailState where
  currentSketchImage : Option String
  currentRenderedImage : Option String
  isRendering : Bool
  errorText : String
  errorHidden : Bool
  successText : String
  successHidden : Bool
  renderSpinnerHidden : Bool
  generateBtnDisabled : Bool
  gallery : List String
  outputControlsHidden : Bool
  statTime : String
  statsBoxHidden : Bool
  previewSrc : String
  previewHidden : Bool
  uploadLabelHidden : Bool
  custom_description : String
  camera_angle : String
  time_of_day : String
  weather : String
  quality_level : String
  quality_gi : Bool
  quality_shadows : Bool
  quality_hdri : Bool
  quality_reflection : Bool
  quality_dof : Bool
  quality_bloom : Bool
  quality_color_correction : Bool
  quality_desaturate : Bool
  sketch_adherence : String
  aspect_ratio : String
  scale : String
  project_type_value : String
  project_type_text : String
  overall_description : String
  highrise_count : String
  highrise_floors : String
  highrise_style_value : String
  highrise_style_text : String
  highrise_colors : String
  highrise_features : String
  has_lowrise : Bool
  lowrise_floors : String
  lowrise_style_value : String
  lowrise_style_text : String
  lowrise_colors : String
  green_spaces : String
  tree_type_value : String
  tree_type_text : String
  road_pattern_value : String
  road_pattern_text : String
  context_people : Bool
  context_vehicles : Bool
  context_skyline : Bool
  context_water : Bool
deriving DecidableEq, Repr

/-- `showError('renderError', message)`. -/
def DetailState.showError (s : DetailState) (message : String) : DetailState :=
  { s with errorText := message, errorHidden := false }

/-- `hideError('renderError')`. -/
def DetailState.hideError (s : DetailState) : DetailState :=
  { s with errorHidden := true }

/-- `showSuccess('renderSuccess', message)`. -/
def DetailState.showSuccess (s : DetailState) (message : String) : DetailState :=
  { s with successText := message, successHidden := false }

/-- `hideSuccess('renderSuccess')`. -/
def DetailState.hideSuccess (s : DetailState) : DetailState :=
  { s with successHidden := true }

/-- `handleImageUpload`: ignore an empty file list; the `FileReader`
result becomes the sketch image and preview, and the generate button is
enabled; an exception is caught and shown with the message
`'Lỗi khi tải ảnh: ' + error.message`. -/
def handleImageUpload (s : DetailState) (hasFile : Bool) (o : UploadOutcome) : DetailState :=
  if !hasFile then s
  else match o with
    | .ok base64 =>
        { s with
          currentSketchImage := some base64
          previewSrc := base64
          previewHidden := false
          uploadLabelHidden := true
          generateBtnDisabled := false }
    | .err message =>
        s.showError ("Lỗi khi tải ảnh: " ++ message)

/-- The `quality_presets` object of `collectFormData`. -/
structure QualityPresets where
  global_illumination : Bool
  soft_shadows : Bool
  hdri_sky : Bool
  reflections : Bool
  depth_of_field : Bool
  bloom : Bool
  color_correction : Bool
  desaturate : Bool
deriving DecidableEq, Repr

/-- `structured_data.highrise_zone`. -/
structure HighriseZone where
  count : String
  floors : String
  style : String
  colors : String
  features : String
deriving DecidableEq, Repr

/-- `structured_data.lowrise_zone` (`exists'` embeds the JSON key
`exists`, a reserved word in Lean). -/
structure LowriseZone where
  exists' : Bool
  floors : String
  style : String
  colors : String
deriving DecidableEq, Repr

/-- `structured_data.landscape.context`. -/
structure ContextFlags where
  people : Bool
  vehicles : Bool
  skyline : Bool
  water : Bool
deriving DecidableEq, Repr

/-- `structured_data.landscape`. -/
structure Landscape where
  green_spaces : String
  tree_type : String
  road_pattern : String
  context : ContextFlags
deriving DecidableEq, Repr

/-- `structured_data`. -/
structure StructuredData where
  scale : String
  project_type : String
  overall_description : String
  highrise_zone : HighriseZone
  lowrise_zone : LowriseZone
  landscape : Landscape
deriving DecidableEq, Repr

/-- The object returned by `collectFormData` (`sketch_adherence` keeps
the raw slider string; the JS `parseFloat` is a float coercion with no
bearing on the claims). -/
structure FormData where
  planning_description : String
  camera_angle : String
  time_of_day : String
  weather : String
  quality_level : String
  quality_presets : QualityPresets
  sketch_adherence : String
  aspect_ratio : String
  structured_data : StructuredData
deriving DecidableEq, Repr

/-- `buildDescriptionFromFields`: assemble the Vietnamese prompt from the
structured form fields, part by part, joined with `'. '` and closed with
a final period. -/
def buildDescriptionFromFields (s : DetailState) : String :=
  let parts : List String := ["Quy hoạch " ++ s.scale ++ " " ++ s.project_type_text]
  let overall := (jsTrim s.overall_description)
  let parts := if overall ≠ "" then parts ++ [overall] else parts
  let hrCount := (jsTrim s.highrise_count)
  let hrFloors := (jsTrim s.highrise_floors)
  let hrStyle := s.highrise_style_text
  let hrColors := (jsTrim s.highrise_colors)
  let hrFeatures := (jsTrim s.highrise_features)
  let parts :=
    if hrCount ≠ "" ∨ hrFloors ≠ "" then
      let hrPart := "Phân khu cao tầng:"
      let hrPart := if hrCount ≠ "" then hrPart ++ " " ++ hrCount ++ " tòa" else hrPart
      let hrPart := if hrFloors ≠ "" then hrPart ++ ", mỗi tòa " ++ hrFloors ++ " tầng" else hrPart
      let hrPart := hrPart ++ ". " ++ hrStyle
      let hrPart := if hrColors ≠ "" then hrPart ++ ", màu sắc: " ++ hrColors else hrPart
      let hrPart := if hrFeatures ≠ "" then hrPart ++ ". Đặc điểm: " ++ hrFeatures else hrPart
      parts ++ [hrPart]
    else parts
  let parts :=
    if s.has_lowrise then
      let lrFloors := (jsTrim s.lowrise_floors)
      let lrStyle := s.lowrise_style_text
      let lrColors := (jsTrim s.lowrise_colors)
      let lrPart := "Phân khu thấp tầng:"
      let lrPart := if lrFloors ≠ "" then lrPart ++ " " ++ lrFloors ++ " tầng" else lrPart
      let lrPart := lrPart ++ ". " ++ lrStyle
      let lrPart := if lrColors ≠ "" then lrPart ++ ", " ++ lrColors else lrPart
      parts ++ [lrPart]
    else parts
  let greenSpaces := (jsTrim s.green_spaces)
  let landPart := "Cảnh quan:"
  let landPart := if greenSpaces ≠ "" then landPart ++ " " ++ greenSpaces ++ "." else landPart
  let landPart := landPart ++ " Cây xanh: " ++ s.tree_type_text ++ ". Giao thông: " ++ s.road_pattern_text
  let parts := parts ++ [landPart]
  let contextParts : List String :=
    (if s.context_people then ["người đi bộ (motion blur)"] else []) ++
    (if s.context_vehicles then ["xe hơi (motion blur)"] else []) ++
    (if s.context_skyline then ["city skyline phía xa"] else []) ++
    (if s.context_water then ["water features"] else [])
  let parts :=
    if contextParts.length > 0 then
      parts ++ ["Context: " ++ String.intercalate ", " contextParts]
    else parts
  String.intercalate ". " parts ++ "."

/-- `collectFormData`: the trimmed free-text `custom_description` wins
when truthy; otherwise the prompt is synthesized by
`buildDescriptionFromFields`.  The structured form data rides along for
the backend. -/
def collectFormData (s : DetailState) : FormData :=
  let customDescription := (jsTrim s.custom_description)
  let planning_description :=
    if customDescription ≠ "" then customDescription
    else buildDescriptionFromFields s
  { planning_description := planning_description
    camera_angle := s.camera_angle
    time_of_day := s.time_of_day
    weather := s.weather
    quality_level := s.quality_level
    quality_presets :=
      { global_illumination := s.quality_gi
        soft_shadows := s.quality_shadows
        hdri_sky := s.quality_hdri
        reflections := s.quality_reflection
        depth_of_field := s.quality_dof
        bloom := s.quality_bloom
        color_correction := s.quality_color_correction
        desaturate := s.quality_desaturate }
    sketch_adherence := s.sketch_adherence
    aspect_ratio := s.aspect_ratio
    structured_data :=
      { scale := s.scale
        project_type := s.project_type_value
        overall_description := s.overall_description
        highrise_zone :=
          { count := s.highrise_count
            floors := s.highrise_floors
            style := s.highrise_style_value
            colors := s.highrise_colors
            features := s.highrise_features }
        lowrise_zone :=
          { exists' := s.has_lowrise
            floors := s.lowrise_floors
            style := s.lowrise_style_value
            colors := s.lowrise_colors }
        landscape :=
          { green_spaces := s.green_spaces
            tree_type := s.tree_type_value
            road_pattern := s.road_pattern_value
            context :=
              { people := s.context_people
                vehicles := s.context_vehicles
                skyline := s.context_skyline
                water := s.context_water } } } }

/-- The body of the POST `/api/planning/detail-render` request. -/
structure DetailRequest where
  image_base64 : String
  planning_data : FormData
deriving DecidableEq, Repr

/-- `requestData` as assembled by `generateRender`. -/
def mkDetailRequest (s : DetailState) : DetailRequest :=
  { image_base64 := s.currentSketchImage.getD ""
    planning_data := collectFormData s }

/-- Environment outcome of the detail render `fetch`. -/
inductive DetailOutcome where
  | ok (generated_image_base64 : String)
  | httpError (status : ℕ) (errorField : Option String)
  | netError (message : String)
deriving DecidableEq, Repr

/-- Observable events of one invocation of `generateRender`. -/
inductive DetailEvent where
  | setFlag (value : Bool)
  | fetch (req : DetailRequest)
deriving DecidableEq, Repr

/-- `displayRenderedImage`: clear the gallery, insert a single `img`
whose `src` is the returned base64 string, and reveal the output
controls (inline styling of the `img` is presentational and not
modelled). -/
def displayRenderedImage (s : DetailState) (base64Image : String) : DetailState :=
  { s with gallery := [base64Image], outputControlsHidden := false }

/-- `errorData.error || 'Server error: ' + response.status` for a non-ok
response on the detail page. -/
def detailHttpErrMsg (status : ℕ) : Option String → String
  | some e => if e = "" then "Server error: " ++ toString status else e
  | none => "Server error: " ++ toString status

/-- The `try`/`catch`/`finally` body of `generateRender`, entered once
all guards have passed.  `elapsedTime` is the wall-clock duration string
measured around the fetch, an environment input. -/
def detailRenderCore (s : DetailState) (o : DetailOutcome) (elapsedTime : String) :
    DetailState :=
  let s1 := { s with
    isRendering := true
    renderSpinnerHidden := false
    generateBtnDisabled := true }
  let s1 := s1.hideError.hideSuccess
  let s2 := match o with
    | .ok generated =>
        let sOk := displayRenderedImage
          { s1 with currentRenderedImage := some generated } generated
        let sOk := sOk.showSuccess ("✅ Render thành công trong " ++ elapsedTime ++ "s!")
        { sOk with statTime := elapsedTime ++ "s", statsBoxHidden := false }
    | .httpError status errorField =>
        s1.showError ("Lỗi khi render: " ++ detailHttpErrMsg status errorField)
    | .netError message =>
        s1.showError ("Lỗi khi render: " ++ message)
  { s2 with
    isRendering := false
    renderSpinnerHidden := true
    generateBtnDisabled := false }

/-- `generateRender`: validate the sketch, then the in-flight flag, then
the description fields, and only then perform the single POST to
`/api/planning/detail-render`. -/
def generateRender (s : DetailState) (o : DetailOutcome) (elapsedTime : String) :
    DetailState × List DetailEvent :=
  if !(strTruthy s.currentSketchImage) then
    (s.showError "Vui lòng upload sketch trước!", [])
  else if s.isRendering then
    (s, [])
  else if (jsTrim s.custom_description) = "" ∧ (jsTrim s.overall_description) = "" ∧
      (jsTrim s.highrise_count) = "" ∧ (jsTrim s.highrise_floors) = "" then
    (s.showError "Vui lòng điền thông tin (nhấn Analyze hoặc điền thủ công)!", [])
  else
    (detailRenderCore s o elapsedTime,
     [.setFlag true, .fetch (mkDetailRequest s), .setFlag false])

/-- A planning page as loaded: nothing uploaded, no lot cards, the
generate button disabled by its HTML attribute. -/
def basePlanning : PlanningState :=
  { currentSitePlanImage := none
    currentLotMapImage := none
    isPlanningRendering := false
    lotCards := []
    cameraAngle := "aerial"
    timeOfDay := "afternoon"
    aspectRatio := "16:9"
    styleKeywords := ""
    errorText := ""
    errorHidden := true
    successText := ""
    successHidden := true
    generateBtnDisabled := true
    generateBtnSpinner := false
    gallery := []
    downloadBtnHidden := true
    outputControlsHidden := true
    sitePlanUploaderHasImage := false
    sitePlanPreviewSrc := ""
    sitePlanPreviewHidden := true
    sitePlanUploadText := ""
    lotMapUploaderHasImage := false
    lotMapPreviewSrc := ""
    lotMapPreviewHidden := true
    lotMapUploadText := ""
    addLotBtnDisabled := true }

/-- A planning page with both images uploaded and one filled lot card:
every guard of `generatePlanningRender` passes. -/
def planningReady : PlanningState :=
  { basePlanning with
    currentSitePlanImage := some "data:image/png;base64,AAAA"
    currentLotMapImage := some "data:image/png;base64,BBBB"
    lotCards := [{ numberValue := "1", descriptionValue := "nhà phố 5 tầng" }] }

/-- Modelled from the spec: the detail page's HTML (absent from `src/`)
ships the generate control disabled until a sketch is uploaded —
"submit controls are disabled until required inputs are present". -/
def baseDetail : DetailState :=
  { currentSketchImage := none
    currentRenderedImage := none
    isRendering := false
    errorText := ""
    errorHidden := true
    successText := ""
    successHidden := true
    renderSpinnerHidden := true
    generateBtnDisabled := true
    gallery := []
    outputControlsHidden := true
    statTime := ""
    statsBoxHidden := true
    previewSrc := ""
    previewHidden := true
    uploadLabelHidden := false
    custom_description := ""
    camera_angle := "aerial"
    time_of_day := "afternoon"
    weather := "clear"
    quality_level := "high_fidelity"
    quality_gi := true
    quality_shadows := true
    quality_hdri := true
    quality_reflection := true
    quality_dof := true
    quality_bloom := true
    quality_color_correction := true
    quality_desaturate := true
    sketch_adherence := "0.7"
    aspect_ratio := "16:9"
    scale := "1/500"
    project_type_value := "residential"
    project_type_text := "Khu dân cư"
    overall_description := ""
    highrise_count := ""
    highrise_floors := ""
    highrise_style_value := "modern"
    highrise_style_text := "Hiện đại"
    highrise_colors := ""
    highrise_features := ""
    has_lowrise := false
    lowrise_floors := ""
    lowrise_style_value := "modern"
    lowrise_style_text := "Hiện đại"
    lowrise_colors := ""
    green_spaces := ""
    tree_type_value := "tropical"
    tree_type_text := "Nhiệt đới"
    road_pattern_value := "grid"
    road_pattern_text := "Bàn cờ"
    context_people := false
    context_vehicles := false
    context_skyline := false
    context_water := false }

/-- A detail page with a sketch uploaded and an overall description
filled in: every guard of `generateRender` passes. -/
def detailReady : DetailState :=
  { baseDetail with
    currentSketchImage := some "data:image/png;base64,SKETCH"
    generateBtnDisabled := false
    overall_description := "khu đô thị ven sông" }

/-- A detail page whose required description fields are all blank while a
render is already in flight: the submit handler returns at the in-flight
guard, before the description validation. -/
def detailBlankBusy : DetailState :=
  { baseDetail with
    currentSketchImage := some "data:image/png;base64,SKETCH"
    generateBtnDisabled := false
    isRendering := true }

/-- The fetch requests contained in a planning event trace. -/
def planningFetches (events : List PlanningEvent) : List PlanningRequest :=
  events.filterMap fun e => match e with
    | .fetch req => some req
    | _ => none

/-- The fetch requests contained in a detail event trace. -/
def detailFetches (events : List DetailEvent) : List DetailRequest :=
  events.filterMap fun e => match e with
    | .fetch req => some req
    | _ => none

/-!  Theorems.  Each claim of the specification is settled below; helper
lemmas shared between them come first. -/

/-- The event trace of `generatePlanningRender` is either empty (a guard
fired) or exactly set-flag, fetch, clear-flag. -/
theorem generatePlanningRender_trace (s : PlanningState) (o : PlanningOutcome) :
    (generatePlanningRender s o).2 = [] ∨
    ((generatePlanningRender s o).2 =
      [.setFlag true, .fetch (mkPlanningRequest s), .setFlag false] ∧
     (generatePlanningRender s o).1 = planningRenderCore s o) := by
  unfold generatePlanningRender
  split
  · exact Or.inl rfl
  · split
    · exact Or.inl rfl
    · split
      · exact Or.inl rfl
      · exact Or.inr ⟨rfl, rfl⟩

/-- The event trace of `generateRender` is either empty (a guard fired)
or exactly set-flag, fetch, clear-flag. -/
theorem generateRender_trace (s : DetailState) (o : DetailOutcome) (elapsedTime : String) :
    (generateRender s o elapsedTime).2 = [] ∨
    ((generateRender s o elapsedTime).2 =
      [.setFlag true, .fetch (mkDetailRequest s), .setFlag false] ∧
     (generateRender s o elapsedTime).1 = detailRenderCore s o elapsedTime) := by
  unfold generateRender
  split
  · exact Or.inl rfl
  · split
    · exact Or.inl rfl
    · split
      · exact Or.inl rfl
      · exact Or.inr ⟨rfl, rfl⟩

/-- After `planningRenderCore` the in-flight flag is clear, the button is
re-enabled and its spinner label is restored, whatever the outcome. -/
theorem planningRenderCore_final (s : PlanningState) (o : PlanningOutcome) :
    (planningRenderCore s o).isPlanningRendering = false ∧
    (planningRenderCore s o).generateBtnDisabled = false ∧
    (planningRenderCore s o).generateBtnSpinner = false := by
  unfold planningRenderCore
  cases o <;>
    simp [PlanningState.showError, PlanningState.showSuccess, PlanningState.hideError,
      PlanningState.hideSuccess, displayPlanningRender]

/-- After `detailRenderCore` the in-flight flag is clear, the spinner is
hidden and the button is re-enabled, whatever the outcome. -/
theorem detailRenderCore_final (s : DetailState) (o : DetailOutcome) (elapsedTime : String) :
    (detailRenderCore s o elapsedTime).isRendering = false ∧
    (detailRenderCore s o elapsedTime).renderSpinnerHidden = true ∧
    (detailRenderCore s o elapsedTime).generateBtnDisabled = false := by
  unfold detailRenderCore
  cases o <;>
    simp [DetailState.showError, DetailState.showSuccess, DetailState.hideError,
      DetailState.hideSuccess, displayRenderedImage]

/-- If any event was emitted at all, every guard of
`generatePlanningRender` passed: both images truthy, at least one
collected lot, and no render already in flight. -/
theorem generatePlanningRender_guards (s : PlanningState) (o : PlanningOutcome) :
    (generatePlanningRender s o).2 ≠ [] →
      strTruthy s.currentSitePlanImage = true ∧ strTruthy s.currentLotMapImage = true ∧
      collectLotDescriptions s.lotCards ≠ [] ∧ s.isPlanningRendering = false := by
  unfold generatePlanningRender
  intro h
  split at h
  · exact absurd rfl h
  · split at h
    · exact absurd rfl h
    · split at h
      · exact absurd rfl h
      · simp_all [List.length_eq_zero]

/-- If any event was emitted at all, every guard of `generateRender`
passed: truthy sketch, no render in flight, some description content. -/
theorem generateRender_guards (s : DetailState) (o : DetailOutcome) (t : String) :
    (generateRender s o t).2 ≠ [] →
      strTruthy s.currentSketchImage = true ∧ s.isRendering = false ∧
      ¬(jsTrim s.custom_description = "" ∧ jsTrim s.overall_description = "" ∧
        jsTrim s.highrise_count = "" ∧ jsTrim s.highrise_floors = "") := by
  unfold generateRender
  intro h
  split at h
  · exact absurd rfl h
  · split at h
    · exact absurd rfl h
    · split at h
      · exact absurd rfl h
      · simp_all

/-- C1: per page, at most one render request is in flight per action: a
submit that arrives while the in-flight flag is set returns without
emitting any event (in particular no POST), and any trace containing a
fetch sets the flag first, clears it last, and leaves it cleared in the
final state. -/
theorem render_single_flight :
    (∀ (s : PlanningState) (o : PlanningOutcome),
      s.isPlanningRendering = true → (generatePlanningRender s o).2 = []) ∧
    (∀ (s : PlanningState) (o : PlanningOutcome) (req : PlanningRequest),
      PlanningEvent.fetch req ∈ (generatePlanningRender s o).2 →
        (generatePlanningRender s o).2 =
          [PlanningEvent.setFlag true, PlanningEvent.fetch req, PlanningEvent.setFlag false] ∧
        (generatePlanningRender s o).1.isPlanningRendering = false) ∧
    (∀ (s : DetailState) (o : DetailOutcome) (t : String),
      s.isRendering = true → (generateRender s o t).2 = []) ∧
    (∀ (s : DetailState) (o : DetailOutcome) (t : String) (req : DetailRequest),
      DetailEvent.fetch req ∈ (generateRender s o t).2 →
        (generateRender s o t).2 =
          [DetailEvent.setFlag true, DetailEvent.fetch req, DetailEvent.setFlag false] ∧
        (generateRender s o t).1.isRendering = false) := by
  refine ⟨?_, ?_, ?_, ?_⟩
  · intro s o h
    unfold generatePlanningRender
    split_ifs <;> simp_all
  · intro s o req hmem
    rcases generatePlanningRender_trace s o with h | ⟨h, h1⟩
    · rw [h] at hmem; simp at hmem
    · rw [h] at hmem
      have hreq : req = mkPlanningRequest s := by simpa using hmem
      subst hreq
      exact ⟨h, by rw [h1]; exact (planningRenderCore_final s o).1⟩
  · intro s o t h
    unfold generateRender
    split_ifs <;> simp_all
  · intro s o t req hmem
    rcases generateRender_trace s o t with h | ⟨h, h1⟩
    · rw [h] at hmem; simp at hmem
    · rw [h] at hmem
      have hreq : req = mkDetailRequest s := by simpa using hmem
      subst hreq
      exact ⟨h, by rw [h1]; exact (detailRenderCore_final s o t).1⟩

/-- Witness for C1: a busy planning page rejects a second submit, and a
completed detail render leaves the flag cleared. -/
theorem render_single_flight_witness :
    ({ planningReady with isPlanningRendering := true } : PlanningState).isPlanningRendering
      = true ∧
    (generatePlanningRender { planningReady with isPlanningRendering := true }
      (.netError "boom")).2 = [] ∧
    DetailEvent.fetch (mkDetailRequest detailReady) ∈
      (generateRender detailReady (.ok "IMG") "1.0").2 ∧
    (generateRender detailReady (.ok "IMG") "1.0").1.isRendering = false := by
  have hmem : DetailEvent.fetch (mkDetailRequest detailReady) ∈
      (generateRender detailReady (.ok "IMG") "1.0").2 := by decide
  exact ⟨rfl, render_single_flight.1 _ _ rfl, hmem,
    (render_single_flight.2.2.2 _ _ _ _ hmem).2⟩

/-- C2: `optimizeImageForUpload` maps a 2000×1000 image to 1024×512 —
longer side bounded by 1024, aspect ratio preserved exactly — and leaves
any image with both sides at most 1024 untouched. -/
theorem optimizeImageForUpload_downscale :
    optimizeDims 2000 1000 = (1024, 512) ∧
    (optimizeDims 2000 1000).1 ≤ 1024 ∧ (optimizeDims 2000 1000).2 ≤ 1024 ∧
    (optimizeDims 2000 1000).1 * 1000 = (optimizeDims 2000 1000).2 * 2000 ∧
    (∀ w h : ℕ, w ≤ 1024 → h ≤ 1024 → optimizeDims w h = (w, h)) := by
  have key : optimizeDims 2000 1000 = (1024, 512) := by
    unfold optimizeDims
    rw [if_pos (by norm_num)]
    norm_num [jsRound]
    decide
  refine ⟨key, by rw [key], by rw [key]; decide, by rw [key]; decide, ?_⟩
  intro w h hw hh
  unfold optimizeDims
  rw [if_neg (by omega)]

/-- Witness for C2: an 800×600 image is within bounds and not resized. -/
theorem optimizeImageForUpload_downscale_witness :
    (800 ≤ 1024 ∧ 600 ≤ 1024) ∧ optimizeDims 800 600 = (800, 600) :=
  ⟨⟨by decide, by decide⟩,
   optimizeImageForUpload_downscale.2.2.2.2 800 600 (by decide) (by decide)⟩

/-- C3 counterexample: on the detail page, with a sketch uploaded, all
required description fields blank and a render already in flight, the
submit handler returns at the in-flight guard: no validation error is
displayed (the error element stays hidden and the state is unchanged),
although a required input is missing.  No fetch is issued either. -/
theorem validation_error_skipped_when_busy :
    strTruthy detailBlankBusy.currentSketchImage = true ∧
    jsTrim detailBlankBusy.custom_description = "" ∧
    jsTrim detailBlankBusy.overall_description = "" ∧
    jsTrim detailBlankBusy.highrise_count = "" ∧
    jsTrim detailBlankBusy.highrise_floors = "" ∧
    (generateRender detailBlankBusy (.netError "e") "0").1.errorHidden = true ∧
    (generateRender detailBlankBusy (.netError "e") "0").1 = detailBlankBusy ∧
    (generateRender detailBlankBusy (.netError "e") "0").2 = [] := by
  decide

/-- C3 (amended): a missing required input always blocks the network call,
and the handler displays the matching validation error — except that on
the detail page the description-validation error is only displayed when no
render is already in flight (the in-flight guard runs first and returns
silently). -/
theorem validation_blocks_submit :
    (∀ (s : PlanningState) (o : PlanningOutcome),
      (strTruthy s.currentSitePlanImage = false ∨ strTruthy s.currentLotMapImage = false) →
        (generatePlanningRender s o).1.errorText = "Vui lòng upload Site Plan và Lot Map!" ∧
        (generatePlanningRender s o).1.errorHidden = false ∧
        (generatePlanningRender s o).2 = []) ∧
    (∀ (s : PlanningState) (o : PlanningOutcome),
      strTruthy s.currentSitePlanImage = true → strTruthy s.currentLotMapImage = true →
      collectLotDescriptions s.lotCards = [] →
        (generatePlanningRender s o).1.errorText = "Vui lòng thêm ít nhất một mô tả lô!" ∧
        (generatePlanningRender s o).1.errorHidden = false ∧
        (generatePlanningRender s o).2 = []) ∧
    (∀ (s : DetailState) (o : DetailOutcome) (t : String),
      strTruthy s.currentSketchImage = false →
        (generateRender s o t).1.errorText = "Vui lòng upload sketch trước!" ∧
        (generateRender s o t).1.errorHidden = false ∧
        (generateRender s o t).2 = []) ∧
    (∀ (s : DetailState) (o : DetailOutcome) (t : String),
      strTruthy s.currentSketchImage = true → s.isRendering = false →
      jsTrim s.custom_description = "" → jsTrim s.overall_description = "" →
      jsTrim s.highrise_count = "" → jsTrim s.highrise_floors = "" →
        (generateRender s o t).1.errorText =
          "Vui lòng điền thông tin (nhấn Analyze hoặc điền thủ công)!" ∧
        (generateRender s o t).1.errorHidden = false ∧
        (generateRender s o t).2 = []) ∧
    (∀ (s : DetailState) (o : DetailOutcome) (t : String),
      jsTrim s.custom_description = "" → jsTrim s.overall_description = "" →
      jsTrim s.highrise_count = "" → jsTrim s.highrise_floors = "" →
        (generateRender s o t).2 = []) := by
  refine ⟨?_, ?_, ?_, ?_, ?_⟩
  · intro s o h
    unfold generatePlanningRender
    rw [if_pos (by rcases h with h | h <;> simp [h])]
    exact ⟨rfl, rfl, rfl⟩
  · intro s o h1 h2 h3
    unfold generatePlanningRender
    rw [if_neg (by simp [h1, h2]), if_pos (by simp [h3])]
    exact ⟨rfl, rfl, rfl⟩
  · intro s o t h
    unfold generateRender
    rw [if_pos (by simp [h])]
    exact ⟨rfl, rfl, rfl⟩
  · intro s o t hs hr h1 h2 h3 h4
    unfold generateRender
    rw [if_neg (by simp [hs]), if_neg (by simp [hr]), if_pos ⟨h1, h2, h3, h4⟩]
    exact ⟨rfl, rfl, rfl⟩
  · intro s o t h1 h2 h3 h4
    unfold generateRender
    split_ifs with g1 g2 g3
    · rfl
    · rfl
    · rfl
    · exact absurd ⟨h1, h2, h3, h4⟩ g3

/-- Witness for C3 (amended): an untouched planning page blocks the
submit with the missing-images error and issues no request. -/
theorem validation_blocks_submit_witness :
    strTruthy basePlanning.currentSitePlanImage = false ∧
    (generatePlanningRender basePlanning (.netError "e")).1.errorText =
      "Vui lòng upload Site Plan và Lot Map!" ∧
    (generatePlanningRender basePlanning (.netError "e")).2 = [] := by
  have h := validation_blocks_submit.1 basePlanning (.netError "e") (Or.inl rfl)
  exact ⟨rfl, h.1, h.2.2⟩

/-- C4: every error during a render action is terminal: the trace never
contains more than one fetch (nothing is retried), and on a failing
outcome the error element is shown while the `finally` block restores the
pre-submit UI — submit control re-enabled, spinner hidden, in-flight flag
cleared. -/
theorem render_errors_terminal :
    (∀ (s : PlanningState) (o : PlanningOutcome),
      (planningFetches (generatePlanningRender s o).2).length ≤ 1) ∧
    (∀ (s : PlanningState) (st : ℕ) (ef : Option String),
      (generatePlanningRender s (.httpError st ef)).2 ≠ [] →
        (generatePlanningRender s (.httpError st ef)).1.errorHidden = false ∧
        (generatePlanningRender s (.httpError st ef)).1.generateBtnDisabled = false ∧
        (generatePlanningRender s (.httpError st ef)).1.generateBtnSpinner = false ∧
        (generatePlanningRender s (.httpError st ef)).1.isPlanningRendering = false) ∧
    (∀ (s : PlanningState) (m : String),
      (generatePlanningRender s (.netError m)).2 ≠ [] →
        (generatePlanningRender s (.netError m)).1.errorHidden = false ∧
        (generatePlanningRender s (.netError m)).1.generateBtnDisabled = false ∧
        (generatePlanningRender s (.netError m)).1.generateBtnSpinner = false ∧
        (generatePlanningRender s (.netError m)).1.isPlanningRendering = false) ∧
    (∀ (s : DetailState) (o : DetailOutcome) (t : String),
      (detailFetches (generateRender s o t).2).length ≤ 1) ∧
    (∀ (s : DetailState) (st : ℕ) (ef : Option String) (t : String),
      (generateRender s (.httpError st ef) t).2 ≠ [] →
        (generateRender s (.httpError st ef) t).1.errorHidden = false ∧
        (generateRender s (.httpError st ef) t).1.generateBtnDisabled = false ∧
        (generateRender s (.httpError st ef) t).1.renderSpinnerHidden = true ∧
        (generateRender s (.httpError st ef) t).1.isRendering = false) ∧
    (∀ (s : DetailState) (m t : String),
      (generateRender s (.netError m) t).2 ≠ [] →
        (generateRender s (.netError m) t).1.errorHidden = false ∧
        (generateRender s (.netError m) t).1.generateBtnDisabled = false ∧
        (generateRender s (.netError m) t).1.renderSpinnerHidden = true ∧
        (generateRender s (.netError m) t).1.isRendering = false) := by
  refine ⟨?_, ?_, ?_, ?_, ?_, ?_⟩
  · intro s o
    rcases generatePlanningRender_trace s o with h | ⟨h, _⟩ <;>
      simp [h, planningFetches]
  · intro s st ef hne
    rcases generatePlanningRender_trace s (.httpError st ef) with h | ⟨_, h1⟩
    · exact absurd h hne
    · rw [h1]
      refine ⟨?_, (planningRenderCore_final s _).2.1,
        (planningRenderCore_final s _).2.2, (planningRenderCore_final s _).1⟩
      simp [planningRenderCore, PlanningState.showError, PlanningState.hideError,
        PlanningState.hideSuccess]
  · intro s m hne
    rcases generatePlanningRender_trace s (.netError m) with h | ⟨_, h1⟩
    · exact absurd h hne
    · rw [h1]
      refine ⟨?_, (planningRenderCore_final s _).2.1,
        (planningRenderCore_final s _).2.2, (planningRenderCore_final s _).1⟩
      simp [planningRenderCore, PlanningState.showError, PlanningState.hideError,
        PlanningState.hideSuccess]
  · intro s o t
    rcases generateRender_trace s o t with h | ⟨h, _⟩ <;>
      simp [h, detailFetches]
  · intro s st ef t hne
    rcases generateRender_trace s (.httpError st ef) t with h | ⟨_, h1⟩
    · exact absurd h hne
    · rw [h1]
      refine ⟨?_, (detailRenderCore_final s _ t).2.2,
        (detailRenderCore_final s _ t).2.1, (detailRenderCore_final s _ t).1⟩
      simp [detailRenderCore, DetailState.showError, DetailState.hideError,
        DetailState.hideSuccess]
  · intro s m t hne
    rcases generateRender_trace s (.netError m) t with h | ⟨_, h1⟩
    · exact absurd h hne
    · rw [h1]
      refine ⟨?_, (detailRenderCore_final s _ t).2.2,
        (detailRenderCore_final s _ t).2.1, (detailRenderCore_final s _ t).1⟩
      simp [detailRenderCore, DetailState.showError, DetailState.hideError,
        DetailState.hideSuccess]

/-- Witness for C4: a failed planning render on a ready page shows the
error and restores the pre-submit UI. -/
theorem render_errors_terminal_witness :
    (generatePlanningRender planningReady (.netError "ECONNREFUSED")).2 ≠ [] ∧
    (generatePlanningRender planningReady (.netError "ECONNREFUSED")).1.errorHidden = false ∧
    (generatePlanningRender planningReady (.netError "ECONNREFUSED")).1.isPlanningRendering
      = false := by
  have hne : (generatePlanningRender planningReady (.netError "ECONNREFUSED")).2 ≠ [] := by
    decide
  have h := render_errors_terminal.2.2.1 planningReady "ECONNREFUSED" hne
  exact ⟨hne, h.1, h.2.2.2⟩

/-- C5 counterexample: for a non-ok response whose body carries
`error = "boom"`, the planning page's visible error element receives
`"Lỗi render: boom"`, not the verbatim message `"boom"`; and when the
`error` field is absent, it receives the fixed fallback
`"Lỗi render: Planning render failed"`, not the HTTP status text. -/
theorem http_error_not_verbatim :
    (generatePlanningRender planningReady (.httpError 500 (some "boom"))).1.errorText =
      "Lỗi render: boom" ∧
    (generatePlanningRender planningReady (.httpError 500 (some "boom"))).1.errorText ≠
      "boom" ∧
    (generatePlanningRender planningReady (.httpError 500 none)).1.errorText =
      "Lỗi render: Planning render failed" := by
  decide

/-- C5 (amended): for every non-ok HTTP response that reaches the fetch,
the visible error element receives a page-specific prefix
(`"Lỗi render: "` on the planning page, `"Lỗi khi render: "` on the
detail page) followed by the response body's `error` field when present
and non-empty, and otherwise by a fixed fallback — `"Planning render
failed"` on the planning page, `"Server error: <status code>"` on the
detail page. -/
theorem http_error_message_shape :
    (∀ (s : PlanningState) (st : ℕ) (ef : Option String),
      (generatePlanningRender s (.httpError st ef)).2 ≠ [] →
        (generatePlanningRender s (.httpError st ef)).1.errorText =
          "Lỗi render: " ++ planningHttpErrMsg ef ∧
        (generatePlanningRender s (.httpError st ef)).1.errorHidden = false) ∧
    (∀ (s : DetailState) (st : ℕ) (ef : Option String) (t : String),
      (generateRender s (.httpError st ef) t).2 ≠ [] →
        (generateRender s (.httpError st ef) t).1.errorText =
          "Lỗi khi render: " ++ detailHttpErrMsg st ef ∧
        (generateRender s (.httpError st ef) t).1.errorHidden = false) := by
  constructor
  · intro s st ef hne
    rcases generatePlanningRender_trace s (.httpError st ef) with h | ⟨_, h1⟩
    · exact absurd h hne
    · rw [h1]
      simp [planningRenderCore, PlanningState.showError, PlanningState.hideError,
        PlanningState.hideSuccess]
  · intro s st ef t hne
    rcases generateRender_trace s (.httpError st ef) t with h | ⟨_, h1⟩
    · exact absurd h hne
    · rw [h1]
      simp [detailRenderCore, DetailState.showError, DetailState.hideError,
        DetailState.hideSuccess]

/-- Witness for C5 (amended): a 404 without an `error` field on the
detail page yields the prefixed status-code fallback. -/
theorem http_error_message_shape_witness :
    (generateRender detailReady (.httpError 404 none) "2.5").2 ≠ [] ∧
    (generateRender detailReady (.httpError 404 none) "2.5").1.errorText =
      "Lỗi khi render: Server error: 404" := by
  have hne : (generateRender detailReady (.httpError 404 none) "2.5").2 ≠ [] := by decide
  have h := http_error_message_shape.2 detailReady 404 none "2.5" hne
  exact ⟨hne, h.1⟩

/-- C6: `updateGenerateButton` enables the planning submit exactly when a
site plan, a lot map, at least one lot card and at least one non-blank
lot description are all present; the detail page ships its generate
control disabled and `handleImageUpload` enables it once a sketch is
uploaded. -/
theorem submit_controls_gating :
    (∀ s : PlanningState,
      (updateGenerateButton s).generateBtnDisabled = false ↔
        (s.currentSitePlanImage.isSome ∧ s.currentLotMapImage.isSome ∧
         s.lotCards ≠ [] ∧ ∃ card ∈ s.lotCards, jsTrim card.descriptionValue ≠ "")) ∧
    baseDetail.generateBtnDisabled = true ∧
    (∀ (s : DetailState) (dataUrl : String),
      (handleImageUpload s true (.ok dataUrl)).generateBtnDisabled = false ∧
      (handleImageUpload s true (.ok dataUrl)).currentSketchImage = some dataUrl) := by
  refine ⟨?_, rfl, ?_⟩
  · intro s
    simp [updateGenerateButton, List.isEmpty_iff, List.any_eq_true, Option.isSome_iff_exists,
      and_assoc]
  · intro s dataUrl
    exact ⟨rfl, rfl⟩

/-- C7: a successful render response is displayed: on the detail page the
single gallery image's `src` is the returned base64 string itself; on the
planning page it is a data URL assembled from the returned `mime_type`
and base64 payload.  Either way the previous gallery content is replaced
by that single image. -/
theorem success_renders_image :
    (∀ (s : DetailState) (b t : String),
      (generateRender s (.ok b) t).2 ≠ [] →
        (generateRender s (.ok b) t).1.gallery = [b] ∧
        (generateRender s (.ok b) t).1.outputControlsHidden = false ∧
        (generateRender s (.ok b) t).1.currentRenderedImage = some b) ∧
    (∀ (s : DetailState) (b : String), (displayRenderedImage s b).gallery = [b]) ∧
    (∀ (s : PlanningState) (r : PlanningRenderOk),
      (generatePlanningRender s (.ok r)).2 ≠ [] →
        (generatePlanningRender s (.ok r)).1.gallery =
          ["data:" ++ r.mime_type ++ ";base64," ++ r.generated_image_base64]) ∧
    (∀ (s : PlanningState) (b m : String),
      (displayPlanningRender s b m).gallery = ["data:" ++ m ++ ";base64," ++ b]) := by
  refine ⟨?_, fun s b => rfl, ?_, fun s b m => rfl⟩
  · intro s b t hne
    rcases generateRender_trace s (.ok b) t with h | ⟨_, h1⟩
    · exact absurd h hne
    · rw [h1]
      simp [detailRenderCore, displayRenderedImage, DetailState.showSuccess,
        DetailState.hideError, DetailState.hideSuccess]
  · intro s r hne
    rcases generatePlanningRender_trace s (.ok r) with h | ⟨_, h1⟩
    · exact absurd h hne
    · rw [h1]
      simp [planningRenderCore, displayPlanningRender, PlanningState.showSuccess,
        PlanningState.hideError, PlanningState.hideSuccess]

/-- Witness for C7: a successful planning render on a ready page puts the
assembled data URL in the gallery. -/
theorem success_renders_image_witness :
    (generatePlanningRender planningReady (.ok ⟨"IMG", "image/png"⟩)).2 ≠ [] ∧
    (generatePlanningRender planningReady (.ok ⟨"IMG", "image/png"⟩)).1.gallery =
      ["data:image/png;base64,IMG"] := by
  have hne : (generatePlanningRender planningReady (.ok ⟨"IMG", "image/png"⟩)).2 ≠ [] := by
    decide
  exact ⟨hne, success_renders_image.2.2.1 planningReady ⟨"IMG", "image/png"⟩ hne⟩

/-- C8: `collectFormData` uses the structured builder exactly when the
trimmed custom description is empty; a non-empty custom description is
used verbatim (trimmed) as `planning_description`. -/
theorem planning_description_choice :
    ∀ s : DetailState,
      (jsTrim s.custom_description = "" →
        (collectFormData s).planning_description = buildDescriptionFromFields s) ∧
      (jsTrim s.custom_description ≠ "" →
        (collectFormData s).planning_description = jsTrim s.custom_description) := by
  intro s
  constructor
  · intro h
    simp [collectFormData, h]
  · intro h
    simp [collectFormData, h]

/-- Witness for C8: a blank custom description falls back to the
structured builder, a non-blank one wins. -/
theorem planning_description_choice_witness :
    (jsTrim baseDetail.custom_description = "" ∧
      (collectFormData baseDetail).planning_description =
        buildDescriptionFromFields baseDetail) ∧
    (jsTrim ({ baseDetail with custom_description := " khu công nghệ cao " }
        : DetailState).custom_description ≠ "" ∧
      (collectFormData { baseDetail with custom_description := " khu công nghệ cao " }
        ).planning_description = "khu công nghệ cao") := by
  constructor
  · exact ⟨by decide, (planning_description_choice baseDetail).1 (by decide)⟩
  · refine ⟨by decide, ?_⟩
    have h := (planning_description_choice
      { baseDetail with custom_description := " khu công nghệ cao " }).2 (by decide)
    rw [h]
    decide

/-- C9 counterexample: the detail page's upload handler does not show one
generic upload-failure message — the displayed text varies with the
exception's message (it is the prefix `"Lỗi khi tải ảnh: "` followed by
`error.message`). -/
theorem upload_error_message_not_generic :
    (handleImageUpload baseDetail true (.err "TypeError: x")).errorText =
      "Lỗi khi tải ảnh: TypeError: x" ∧
    (handleImageUpload baseDetail true (.err "RangeError: y")).errorText =
      "Lỗi khi tải ảnh: RangeError: y" ∧
    (handleImageUpload baseDetail true (.err "TypeError: x")).errorText ≠
      (handleImageUpload baseDetail true (.err "RangeError: y")).errorText := by
  decide

/-- C9 (amended): an exception in the upload pipeline is caught by the
handler and displayed in the page's error element rather than
propagating; the planning page's two handlers show a fixed generic
message, while the detail page's handler shows a generic prefix followed
by the exception's message. -/
theorem upload_errors_caught :
    (∀ (s : PlanningState) (m : String),
      (handleSitePlanUpload s true (.err m)).errorText =
        "Lỗi tải site plan. Vui lòng thử lại." ∧
      (handleSitePlanUpload s true (.err m)).errorHidden = false) ∧
    (∀ (s : PlanningState) (m : String),
      (handleLotMapUpload s true (.err m)).errorText =
        "Lỗi tải lot map. Vui lòng thử lại." ∧
      (handleLotMapUpload s true (.err m)).errorHidden = false) ∧
    (∀ (s : DetailState) (m : String),
      (handleImageUpload s true (.err m)).errorText = "Lỗi khi tải ảnh: " ++ m ∧
      (handleImageUpload s true (.err m)).errorHidden = false) := by
  exact ⟨fun s m => ⟨rfl, rfl⟩, fun s m => ⟨rfl, rfl⟩, fun s m => ⟨rfl, rfl⟩⟩

/-- C10: every element of the `lot_descriptions` array sent to
`/api/planning/render` comes from some lot card with both fields trimmed
and non-empty; a card with a blank number or description is silently
dropped; and a fetch is only ever issued with the non-empty collected
list. -/
theorem lot_descriptions_wellformed :
    (∀ (cards : List LotCard) (e : LotEntry), e ∈ collectLotDescriptions cards →
      ∃ card ∈ cards, e.lot_number = jsTrim card.numberValue ∧
        e.description = jsTrim card.descriptionValue ∧
        e.lot_number ≠ "" ∧ e.description ≠ "") ∧
    (∀ (pre post : List LotCard) (card : LotCard),
      jsTrim card.numberValue = "" ∨ jsTrim card.descriptionValue = "" →
        collectLotDescriptions (pre ++ card :: post) =
          collectLotDescriptions pre ++ collectLotDescriptions post) ∧
    (∀ (s : PlanningState) (o : PlanningOutcome) (req : PlanningRequest),
      PlanningEvent.fetch req ∈ (generatePlanningRender s o).2 →
        req.lot_descriptions = collectLotDescriptions s.lotCards ∧
        req.lot_descriptions ≠ []) ∧
    (∀ (s : PlanningState) (o : PlanningOutcome),
      collectLotDescriptions s.lotCards = [] →
        planningFetches (generatePlanningRender s o).2 = []) := by
  refine ⟨?_, ?_, ?_, ?_⟩
  · intro cards e he
    simp only [collectLotDescriptions, List.mem_filterMap] at he
    obtain ⟨card, hmem, hf⟩ := he
    by_cases hc : jsTrim card.numberValue ≠ "" ∧ jsTrim card.descriptionValue ≠ ""
    · rw [if_pos hc] at hf
      have he' := Option.some.inj hf
      subst he'
      exact ⟨card, hmem, rfl, rfl, hc.1, hc.2⟩
    · rw [if_neg hc] at hf
      exact Option.noConfusion hf
  · intro pre post card h
    rcases h with h | h <;>
      simp [collectLotDescriptions, List.filterMap_append, List.filterMap_cons, h]
  · intro s o req hmem
    rcases generatePlanningRender_trace s o with h | ⟨h, _⟩
    · rw [h] at hmem; simp at hmem
    · have hne : (generatePlanningRender s o).2 ≠ [] := by rw [h]; simp
      have hg := generatePlanningRender_guards s o hne
      rw [h] at hmem
      have hreq : req = mkPlanningRequest s := by simpa using hmem
      subst hreq
      exact ⟨rfl, hg.2.2.1⟩
  · intro s o h
    by_cases hne : (generatePlanningRender s o).2 = []
    · rw [hne]; rfl
    · exact absurd h (generatePlanningRender_guards s o hne).2.2.1

/-- Witness for C10: the request issued from the ready planning page
carries exactly the collected, non-empty lot list. -/
theorem lot_descriptions_wellformed_witness :
    PlanningEvent.fetch (mkPlanningRequest planningReady) ∈
      (generatePlanningRender planningReady (.ok ⟨"IMG", "image/png"⟩)).2 ∧
    (mkPlanningRequest planningReady).lot_descriptions =
      collectLotDescriptions planningReady.lotCards ∧
    (mkPlanningRequest planningReady).lot_descriptions ≠ [] := by
  have hmem : PlanningEvent.fetch (mkPlanningRequest planningReady) ∈
      (generatePlanningRender planningReady (.ok ⟨"IMG", "image/png"⟩)).2 := by decide
  have h := lot_descriptions_wellformed.2.2.1 planningReady (.ok ⟨"IMG", "image/png"⟩)
    (mkPlanningRequest planningReady) hmem
  exact ⟨hmem, h.1, h.2⟩
